import Mathlib

/-!
Verification of the element builder and block tracker module of the
glimmer-vm excerpt (packages/@glimmer/runtime/lib/vm/element-builder.ts).

Embedding conventions:
* DOM nodes are identified by natural numbers; a node value also carries
  its tag or text contents so that insertion traces are fully explicit.
* Tracker objects and bounds objects are identified by natural object
  identities (JS object identity), drawn from a fresh counter.
* DOM mutation is recorded as a chronological trace of operations.
* Methods that can throw (the expect and assert helpers of the util
  package) are embedded in the Except monad; methods that cannot throw
  are total functions.
* Collaborators declared but not included in the excerpt (the util Stack,
  the bounds clear helper, the normalize predicates, insertHTMLBefore)
  are modelled from the spec; each such definition says so in its doc
  comment.
-/

/-- Lifecycle events observable during teardown and reset of a tracker. -/
inductive Event
  | destroyed (d : Nat)
  | didDestroy (d : Nat)
  | cleared
deriving DecidableEq

/-- Contents of the first and last fields of a tracker: either a concrete
node wrapped by the First and Last classes, or a reference (by object
identity) to a Bounds object handed to newBounds. -/
inductive BRef
  | node (id : Nat)
  | bounds (oid : Nat)
deriving DecidableEq

/-- A DOM node: element, text or comment, each with an identity. -/
inductive DomNode
  | element (tag : String) (id : Nat)
  | text (contents : String) (id : Nat)
  | comment (contents : String) (id : Nat)
deriving DecidableEq

/-- Identity of a DOM node. -/
def DomNode.nid : DomNode → Nat
  | .element _ i => i
  | .text _ i => i
  | .comment _ i => i

/-- DOM mutation operations, recorded in chronological order. -/
inductive DomOp
  | insertBefore (parent : Nat) (node : DomNode) (ref : Option Nat)
  | insertHTML (parent : Nat) (ref : Option Nat) (html : String)
deriving DecidableEq

/-- Modelled from the spec: the tagged union of runtime values fed to the
dynamic content resolver, as the spec describes them: realized tree
nodes, marked-safe markup, plain strings, absent values, and everything
else through its generic string form (normalize.ts is not part of the
excerpt). -/
inductive JSValue
  | node (n : DomNode)
  | safe (html : String)
  | str (s : String)
  | nullish
  | other (conv : String)
deriving DecidableEq

/-- Modelled from the spec: the isNode probe of normalize.ts. -/
def isNode : JSValue → Bool
  | .node _ => true
  | _ => false

/-- Modelled from the spec: the isSafeString probe of normalize.ts. -/
def isSafeString : JSValue → Bool
  | .safe _ => true
  | _ => false

/-- Modelled from the spec: the isString probe of normalize.ts. -/
def isString : JSValue → Bool
  | .str _ => true
  | _ => false

/-- Modelled from the spec: the isEmpty probe of normalize.ts (absent
values coerce to the empty string). -/
def isEmpty : JSValue → Bool
  | .nullish => true
  | _ => false

/-- State of SimpleBlockTracker (element-builder.ts lines 438 to 444):
first and last bounds, owned destroyables (absent until the first
registration, as in the source) and the nesting depth counter.  The oid
field models JS object identity. -/
structure SimpleBlockTracker where
  oid : Nat
  parent : Nat
  first : Option BRef
  last : Option BRef
  destroyables : Option (List Nat)
  nesting : Int
deriving DecidableEq

namespace SimpleBlockTracker

/-- SimpleBlockTracker.newNode (lines 477 to 485): ignore the node when
nesting is nonzero; otherwise set first if absent and always set last. -/
def newNode (t : SimpleBlockTracker) (n : Nat) : SimpleBlockTracker :=
  if t.nesting ≠ 0 then t
  else
    { t with
      first := match t.first with
        | none => some (BRef.node n)
        | some f => some f
      last := some (BRef.node n) }

/-- SimpleBlockTracker.newBounds (lines 487 to 495): same gating as
newNode, storing the bounds object itself. -/
def newBounds (t : SimpleBlockTracker) (b : Nat) : SimpleBlockTracker :=
  if t.nesting ≠ 0 then t
  else
    { t with
      first := match t.first with
        | none => some (BRef.bounds b)
        | some f => some f
      last := some (BRef.bounds b) }

/-- SimpleBlockTracker.openElement (lines 468 to 471): report the element
as a node, then increment nesting. -/
def openElement (t : SimpleBlockTracker) (e : Nat) : SimpleBlockTracker :=
  let t' := t.newNode e
  { t' with nesting := t'.nesting + 1 }

/-- SimpleBlockTracker.closeElement (lines 473 to 475). -/
def closeElement (t : SimpleBlockTracker) : SimpleBlockTracker :=
  { t with nesting := t.nesting - 1 }

/-- SimpleBlockTracker.newDestroyable (lines 497 to 500): lazily create
the list and append. -/
def newDestroyable (t : SimpleBlockTracker) (d : Nat) : SimpleBlockTracker :=
  { t with destroyables := some (t.destroyables.getD [] ++ [d]) }

/-- SimpleBlockTracker.destroy (lines 446 to 454): run every owned
destroyable in registration order; observed as a trace of events. -/
def destroyEvents (t : SimpleBlockTracker) : List Event :=
  (t.destroyables.getD []).map Event.destroyed

/-- SimpleBlockTracker.firstNode (lines 460 to 462): resolve the stored
first reference; a wrapped node resolves to itself, a bounds object is
resolved through the supplied resolution oracle res (the firstNode method
of that object, which lives outside this tracker). -/
def firstNode (t : SimpleBlockTracker) (res : Nat → Option Nat) : Option Nat :=
  match t.first with
  | none => none
  | some (BRef.node n) => some n
  | some (BRef.bounds b) => res b

/-- SimpleBlockTracker.lastNode (lines 464 to 466), same resolution. -/
def lastNode (t : SimpleBlockTracker) (res : Nat → Option Nat) : Option Nat :=
  match t.last with
  | none => none
  | some (BRef.node n) => some n
  | some (BRef.bounds b) => res b

end SimpleBlockTracker

/-- State of BlockListTracker (lines 542 to 546): the externally owned
bound list, its entries identified by object identity. -/
structure BlockListTracker where
  oid : Nat
  parent : Nat
  boundList : List Nat
deriving DecidableEq

/-- BlockListTracker.destroy (lines 548 to 550): run destroy on every
node of the bound list, observed as a trace of events. -/
def BlockListTracker.destroyEvents (t : BlockListTracker) : List Event :=
  t.boundList.map Event.destroyed

/-- The closed set of tracker variants of the excerpt: simple, updatable
and remote share the SimpleBlockTracker state (the latter two subclass
it without adding fields); block-list has its own state. -/
inductive TrackerV
  | simple (t : SimpleBlockTracker)
  | updatable (t : SimpleBlockTracker)
  | remote (t : SimpleBlockTracker)
  | blockList (t : BlockListTracker)
deriving DecidableEq

namespace TrackerV

/-- Object identity of the tracker. -/
def oid : TrackerV → Nat
  | .simple t => t.oid
  | .updatable t => t.oid
  | .remote t => t.oid
  | .blockList t => t.oid

/-- The shared SimpleBlockTracker state of the simple family, when the
variant has one. -/
def sbt? : TrackerV → Option SimpleBlockTracker
  | .simple t => some t
  | .updatable t => some t
  | .remote t => some t
  | .blockList _ => none

/-- Dispatch of newNode: the simple family updates its bounds state
(lines 477 to 485); BlockListTracker.newNode asserts false
(lines 574 to 576). -/
def newNode (tv : TrackerV) (n : Nat) : Except String TrackerV :=
  match tv with
  | .simple t => .ok (.simple (t.newNode n))
  | .updatable t => .ok (.updatable (t.newNode n))
  | .remote t => .ok (.remote (t.newNode n))
  | .blockList _ => .error "Cannot create a new node directly inside a block list"

/-- Dispatch of openElement: BlockListTracker.openElement asserts false
(lines 566 to 568). -/
def openElement (tv : TrackerV) (e : Nat) : Except String TrackerV :=
  match tv with
  | .simple t => .ok (.simple (t.openElement e))
  | .updatable t => .ok (.updatable (t.openElement e))
  | .remote t => .ok (.remote (t.openElement e))
  | .blockList _ => .error "Cannot openElement directly inside a block list"

/-- Dispatch of closeElement: BlockListTracker.closeElement asserts false
(lines 570 to 572). -/
def closeElement (tv : TrackerV) : Except String TrackerV :=
  match tv with
  | .simple t => .ok (.simple t.closeElement)
  | .updatable t => .ok (.updatable t.closeElement)
  | .remote t => .ok (.remote t.closeElement)
  | .blockList _ => .error "Cannot closeElement directly inside a block list"

/-- Dispatch of newBounds: BlockListTracker.newBounds is a silent no-op
(lines 578 to 579). -/
def newBounds (tv : TrackerV) (b : Nat) : TrackerV :=
  match tv with
  | .simple t => .simple (t.newBounds b)
  | .updatable t => .updatable (t.newBounds b)
  | .remote t => .remote (t.newBounds b)
  | .blockList t => .blockList t

/-- Dispatch of newDestroyable: BlockListTracker.newDestroyable is a
silent no-op (lines 581 to 582). -/
def newDestroyable (tv : TrackerV) (d : Nat) : TrackerV :=
  match tv with
  | .simple t => .simple (t.newDestroyable d)
  | .updatable t => .updatable (t.newDestroyable d)
  | .remote t => .remote (t.newDestroyable d)
  | .blockList t => .blockList t

end TrackerV

/-- RemoteBlockTracker.destroy (lines 509 to 515): first the inherited
destroy (running every owned destroyable), then clear(this). -/
def RemoteBlockTracker.destroy (t : SimpleBlockTracker) : List Event :=
  t.destroyEvents ++ [Event.cleared]

/-- Dispatch of destroy as an event trace: simple and updatable use the
inherited SimpleBlockTracker.destroy, remote appends the clear, and
block-list destroys each entry of its bound list. -/
def TrackerV.destroyEvents : TrackerV → List Event
  | .simple t => t.destroyEvents
  | .updatable t => t.destroyEvents
  | .remote t => RemoteBlockTracker.destroy t
  | .blockList t => t.destroyEvents

/-- True when no destroyed event occurs before the first cleared event:
the formal reading of severing back-links before destroyables run. -/
def clearedBeforeDestroys (l : List Event) : Bool :=
  (l.takeWhile (fun e => e != Event.cleared)).all fun e =>
    match e with
    | Event.destroyed _ => false
    | _ => true

/-- True when no destroyed event occurs after the first cleared event:
the formal reading of destroyables running before the range is severed. -/
def noDestroyAfterClear (l : List Event) : Bool :=
  (l.dropWhile (fun e => e != Event.cleared)).all fun e =>
    match e with
    | Event.destroyed _ => false
    | _ => true

/-- Modelled from the spec: the clear helper of bounds.ts removes the
tracked node range, from its first to its last node, from the parent
child list and returns the sibling node that immediately followed the
range (none when the bounds are empty or when there is no following
sibling). -/
def clearRange (children : List Nat) (f? l? : Option Nat) : List Nat × Option Nat :=
  match f?, l? with
  | some f, some l =>
      let pre := children.takeWhile (fun x => x != f)
      let tail := children.dropWhile (fun x => x != f)
      let post := (tail.dropWhile (fun x => x != l)).drop 1
      (pre ++ post, post.head?)
  | _, _ => (children, none)

/-- UpdatableBlockTracker.reset (lines 522 to 539): pass every owned
destroyable to the environment didDestroy hook in registration order,
then clear the tracked range (observed as the final cleared event and as
the removal from the child list), reset first, last, destroyables and
nesting, and return what clear returned.  The result quadruple is
(event trace, tracker after reset, child list after clear, returned
sibling). -/
def UpdatableBlockTracker.reset (t : SimpleBlockTracker) (res : Nat → Option Nat)
    (children : List Nat) :
    List Event × SimpleBlockTracker × List Nat × Option Nat :=
  let evs := (t.destroyables.getD []).map Event.didDestroy
  let cleared := clearRange children (t.firstNode res) (t.lastNode res)
  (evs ++ [Event.cleared],
   { t with first := none, last := none, destroyables := none, nesting := 0 },
   cleared.1, cleared.2)

/-- Bounds object returned by insertHTMLBefore: the parent plus the first
and last parsed node (modelled from the spec; the helper lives in
dom/helper.ts, outside the excerpt). -/
structure HtmlBounds where
  parent : Nat
  first : Option Nat
  last : Option Nat
deriving DecidableEq

/-- The bounds carried by a dynamic content result: either the single
inserted or adopted node (the single helper of bounds.ts) or the bounds
returned by insertHTMLBefore. -/
inductive ContentBounds
  | single (parent : Nat) (node : Nat)
  | parsed (hb : HtmlBounds)
deriving DecidableEq

/-- The four dynamic content results of the resolver: DynamicNodeContent,
DynamicTrustedHTMLContent, DynamicHTMLContent and DynamicTextContent. -/
inductive DynamicContent
  | nodeContent (bounds : ContentBounds) (node : Nat)
  | trustedHTML (bounds : ContentBounds) (html : String)
  | safeHTML (bounds : ContentBounds) (html : String)
  | textContent (bounds : ContentBounds) (text : String)
deriving DecidableEq

/-- The toHTML method of a marked-safe value. -/
def JSValue.toHTML : JSValue → String
  | .safe h => h
  | _ => ""

/-- The underlying string of a plain string value. -/
def JSValue.asString : JSValue → String
  | .str s => s
  | _ => ""

/-- Modelled from the spec: the generic string conversion applied to
unrecognized value shapes (the permissive default the spec preserves). -/
def JSValue.stringConv : JSValue → String
  | .other c => c
  | .str s => s
  | .safe h => h
  | .nullish => ""
  | .node _ => ""

/-- The expect helper of the util package (modelled from the spec: a
missing value aborts loudly with the given message). -/
def expectE {α : Type} (x : Option α) (msg : String) : Except String α :=
  match x with
  | some v => .ok v
  | none => .error msg

/-- State of NewElementBuilder (lines 123 to 163): current cursor
(element, nextSibling), the at most one element under construction with
its operations capability, the three stacks (head of each list is the
stack top), a fresh counter for node and object identities, and the
chronological trace of DOM mutations. -/
structure NewElementBuilder where
  element : Nat
  nextSibling : Option Nat
  constructing : Option DomNode
  operations : Option Unit
  elementStack : List Nat
  nextSiblingStack : List (Option Nat)
  blockStack : List TrackerV
  fresh : Nat
  trace : List DomOp
deriving DecidableEq

namespace NewElementBuilder

/-- NewElementBuilder.block (lines 173 to 175). -/
def block (b : NewElementBuilder) : Except String TrackerV :=
  expectE b.blockStack.head? "Expected a current block tracker"

/-- NewElementBuilder.pushElement (lines 279 to 286): push both the
element and next-sibling stacks and update the cursor. -/
def pushElement (b : NewElementBuilder) (el : Nat) (ns : Option Nat) : NewElementBuilder :=
  { b with
    element := el, elementStack := el :: b.elementStack,
    nextSibling := ns, nextSiblingStack := ns :: b.nextSiblingStack }

/-- NewElementBuilder.popElement (lines 177 to 188): pop both stacks,
then fail if the element stack became empty; otherwise restore the
cursor from the new stack tops.  Returns the popped element. -/
def popElement (b : NewElementBuilder) : Except String (Option Nat × NewElementBuilder) :=
  let topElement := b.elementStack.head?
  let es := b.elementStack.tail
  let ns := b.nextSiblingStack.tail
  match es.head? with
  | none => .error "cannot pop past the last element"
  | some el =>
      .ok (topElement,
        { b with elementStack := es, nextSiblingStack := ns,
                 element := el, nextSibling := ns.head?.getD none })

/-- NewElementBuilder.pushBlockTracker (lines 202 to 215): register the
new tracker as a destroyable of the current tracker, and, unless remote,
as a bounds contributor too, then push it. -/
def pushBlockTracker (b : NewElementBuilder) (tracker : TrackerV) (isRemote : Bool) :
    NewElementBuilder :=
  match b.blockStack with
  | [] => { b with blockStack := [tracker] }
  | cur :: rest =>
      let cur := cur.newDestroyable tracker.oid
      let cur := if isRemote then cur else cur.newBounds tracker.oid
      { b with blockStack := tracker :: cur :: rest }

/-- NewElementBuilder.pushSimpleBlock (lines 190 to 194). -/
def pushSimpleBlock (b : NewElementBuilder) : TrackerV × NewElementBuilder :=
  let tracker : TrackerV := .simple ⟨b.fresh, b.element, none, none, none, 0⟩
  let b := { b with fresh := b.fresh + 1 }
  (tracker, b.pushBlockTracker tracker false)

/-- NewElementBuilder.pushUpdatableBlock (lines 196 to 200). -/
def pushUpdatableBlock (b : NewElementBuilder) : TrackerV × NewElementBuilder :=
  let tracker : TrackerV := .updatable ⟨b.fresh, b.element, none, none, none, 0⟩
  let b := { b with fresh := b.fresh + 1 }
  (tracker, b.pushBlockTracker tracker false)

/-- NewElementBuilder.pushBlockList (lines 217 to 228): same registration
as pushBlockTracker with both newDestroyable and newBounds, written out
separately in the source. -/
def pushBlockList (b : NewElementBuilder) (list : List Nat) : TrackerV × NewElementBuilder :=
  let tracker : TrackerV := .blockList ⟨b.fresh, b.element, list⟩
  let b := { b with fresh := b.fresh + 1 }
  match b.blockStack with
  | [] => (tracker, { b with blockStack := [tracker] })
  | cur :: rest =>
      (tracker,
        { b with blockStack :=
            tracker :: (cur.newDestroyable tracker.oid).newBounds tracker.oid :: rest })

/-- The constructor (lines 151 to 163): set the cursor, push the base
simple block, then push the base element and next-sibling frames. -/
def forInitialRender (parent : Nat) (nextSibling : Option Nat) : NewElementBuilder :=
  let b : NewElementBuilder :=
    { element := parent, nextSibling := nextSibling, constructing := none,
      operations := none, elementStack := [], nextSiblingStack := [],
      blockStack := [], fresh := parent + 1, trace := [] }
  let b := (b.pushSimpleBlock).2
  { b with elementStack := [b.element], nextSiblingStack := [b.nextSibling] }

/-- NewElementBuilder.openElement (lines 235 to 244): create a detached
element, record it as constructing together with the operations
capability, and return it.  The source performs no check of the previous
constructing state. -/
def openElement (b : NewElementBuilder) (tag : String) : DomNode × NewElementBuilder :=
  let element := DomNode.element tag b.fresh
  (element,
    { b with fresh := b.fresh + 1, constructing := some element, operations := some () })

/-- NewElementBuilder.didOpenElement (lines 302 to 305). -/
def didOpenElement (b : NewElementBuilder) (e : Nat) : Except String NewElementBuilder :=
  match b.blockStack with
  | [] => .error "Expected a current block tracker"
  | tv :: rest => (tv.openElement e).map fun tv' => { b with blockStack := tv' :: rest }

/-- NewElementBuilder.flushElement (lines 250 to 261): insert the
constructed element at the cursor, leave the constructing state, push it
as the new cursor parent and notify the current tracker. -/
def flushElement (b : NewElementBuilder) : Except String NewElementBuilder := do
  let parent := b.element
  let element ← expectE b.constructing
    "flushElement should only be called when constructing an element"
  let b := { b with
    trace := b.trace ++ [DomOp.insertBefore parent element b.nextSibling],
    constructing := none, operations := none }
  let b := b.pushElement element.nid none
  b.didOpenElement element.nid

/-- NewElementBuilder.willCloseElement (lines 307 to 309). -/
def willCloseElement (b : NewElementBuilder) : Except String NewElementBuilder :=
  match b.blockStack with
  | [] => .error "Expected a current block tracker"
  | tv :: rest => tv.closeElement.map fun tv' => { b with blockStack := tv' :: rest }

/-- NewElementBuilder.closeElement (lines 423 to 426). -/
def closeElement (b : NewElementBuilder) : Except String NewElementBuilder := do
  let b ← b.willCloseElement
  (b.popElement).map fun p => p.2

/-- NewElementBuilder.didAppendNode (lines 297 to 300). -/
def didAppendNode (b : NewElementBuilder) (n : Nat) : Except String NewElementBuilder :=
  match b.blockStack with
  | [] => .error "Expected a current block tracker"
  | tv :: rest => (tv.newNode n).map fun tv' => { b with blockStack := tv' :: rest }

/-- NewElementBuilder.didAppendBounds (lines 292 to 295). -/
def didAppendBounds (b : NewElementBuilder) (bid : Nat) : Except String NewElementBuilder :=
  match b.blockStack with
  | [] => .error "Expected a current block tracker"
  | tv :: rest => .ok { b with blockStack := tv.newBounds bid :: rest }

/-- NewElementBuilder.didAddDestroyable (lines 288 to 290). -/
def didAddDestroyable (b : NewElementBuilder) (d : Nat) : Except String NewElementBuilder :=
  match b.blockStack with
  | [] => .error "Expected a current block tracker"
  | tv :: rest => .ok { b with blockStack := tv.newDestroyable d :: rest }

/-- NewElementBuilder.appendText (lines 311 to 320): create a text node,
insert it at the cursor and report it to the current tracker. -/
def appendText (b : NewElementBuilder) (s : String) :
    Except String (DomNode × NewElementBuilder) :=
  let node := DomNode.text s b.fresh
  let b := { b with fresh := b.fresh + 1,
                    trace := b.trace ++ [DomOp.insertBefore b.element node b.nextSibling] }
  (b.didAppendNode node.nid).map fun b' => (node, b')

/-- NewElementBuilder.appendComment (lines 396 to 405). -/
def appendComment (b : NewElementBuilder) (s : String) :
    Except String (DomNode × NewElementBuilder) :=
  let node := DomNode.comment s b.fresh
  let b := { b with fresh := b.fresh + 1,
                    trace := b.trace ++ [DomOp.insertBefore b.element node b.nextSibling] }
  (b.didAppendNode node.nid).map fun b' => (node, b')

/-- NewElementBuilder.appendNode (lines 322 to 329): adopt an existing
node at the cursor. -/
def appendNode (b : NewElementBuilder) (n : DomNode) :
    Except String (DomNode × NewElementBuilder) :=
  let b := { b with trace := b.trace ++ [DomOp.insertBefore b.element n b.nextSibling] }
  (b.didAppendNode n.nid).map fun b' => (n, b')

/-- NewElementBuilder.appendHTML (lines 331 to 337): insert markup as
parsed content via insertHTMLBefore (its resulting bounds supplied by
the parse oracle) and report the bounds object to the current tracker. -/
def appendHTML (b : NewElementBuilder) (parse : String → Option Nat × Option Nat)
    (html : String) : Except String (HtmlBounds × NewElementBuilder) :=
  let pr := parse html
  let hb : HtmlBounds := ⟨b.element, pr.1, pr.2⟩
  let boundsOid := b.fresh
  let b := { b with fresh := b.fresh + 1,
                    trace := b.trace ++ [DomOp.insertHTML b.element b.nextSibling html] }
  (b.didAppendBounds boundsOid).map fun b' => (hb, b')

/-- NewElementBuilder.__appendTrustingDynamicContent (lines 343 to 363):
adopt nodes directly; otherwise coerce to a markup string (absent to
empty, safe to its markup, string to itself, otherwise generic string
form) and insert as parsed markup. -/
def appendTrustingDynamicContentRaw (b : NewElementBuilder)
    (parse : String → Option Nat × Option Nat) (value : JSValue) :
    Except String (DynamicContent × NewElementBuilder) :=
  match value with
  | .node n =>
      (b.appendNode n).map fun p =>
        (.nodeContent (.single b.element p.1.nid) p.1.nid, p.2)
  | v =>
      let normalized :=
        if isEmpty v then ""
        else if isSafeString v then v.toHTML
        else if isString v then v.asString
        else v.stringConv
      (b.appendHTML parse normalized).map fun p =>
        (.trustedHTML (.parsed p.1) normalized, p.2)

/-- NewElementBuilder.__appendCautiousDynamicContent (lines 369 to 394):
adopt nodes directly; insert marked-safe markup as parsed content;
otherwise coerce to plain text and insert a single escaped text node
whose bounds are that node. -/
def appendCautiousDynamicContentRaw (b : NewElementBuilder)
    (parse : String → Option Nat × Option Nat) (value : JSValue) :
    Except String (DynamicContent × NewElementBuilder) :=
  match value with
  | .node n =>
      (b.appendNode n).map fun p =>
        (.nodeContent (.single b.element p.1.nid) p.1.nid, p.2)
  | .safe html =>
      let normalized := (JSValue.safe html).toHTML
      (b.appendHTML parse normalized).map fun p =>
        (.safeHTML (.parsed p.1) normalized, p.2)
  | v =>
      let normalized :=
        if isEmpty v then ""
        else if isString v then v.asString
        else v.stringConv
      (b.appendText normalized).map fun p =>
        (.textContent (.single b.element p.1.nid) normalized, p.2)

/-- NewElementBuilder.appendTrustingDynamicContent (lines 339 to 341);
the DynamicContentWrapper adds only an update path, so the wrapper is
the content itself here. -/
def appendTrustingDynamicContent (b : NewElementBuilder)
    (parse : String → Option Nat × Option Nat) (value : JSValue) :
    Except String (DynamicContent × NewElementBuilder) :=
  b.appendTrustingDynamicContentRaw parse value

/-- NewElementBuilder.appendCautiousDynamicContent (lines 365 to 367). -/
def appendCautiousDynamicContent (b : NewElementBuilder)
    (parse : String → Option Nat × Option Nat) (value : JSValue) :
    Except String (DynamicContent × NewElementBuilder) :=
  b.appendCautiousDynamicContentRaw parse value

/-- Finalization of the current block (SimpleBlockTracker.finalize,
lines 502 to 507, and BlockListTracker.finalize, lines 584 to 585): when
the simple family tracker still has no first bound, append one empty
comment through the builder (which routes back into that tracker);
block-list finalize does nothing. -/
def finalizeCurrentBlock (b : NewElementBuilder) : Except String NewElementBuilder := do
  let tv ← b.block
  match tv with
  | .blockList _ => .ok b
  | .simple t | .updatable t | .remote t =>
      if t.first = none then (b.appendComment "").map fun p => p.2 else .ok b

/-- NewElementBuilder.popBlock (lines 230 to 233): finalize the current
tracker, then pop and return it. -/
def popBlock (b : NewElementBuilder) : Except String (TrackerV × NewElementBuilder) := do
  let b ← b.finalizeCurrentBlock
  match b.blockStack with
  | [] => .error "Expected popBlock to return a block"
  | t :: rest => .ok (t, { b with blockStack := rest })

/-- NewElementBuilder.pushRemoteElement (lines 267 to 272): push the
remote parent as the cursor, then push a remote tracker with
isRemote = true. -/
def pushRemoteElement (b : NewElementBuilder) (el : Nat) (ns : Option Nat) :
    NewElementBuilder :=
  let b := b.pushElement el ns
  let tracker : TrackerV := .remote ⟨b.fresh, el, none, none, none, 0⟩
  let b := { b with fresh := b.fresh + 1 }
  b.pushBlockTracker tracker true

/-- NewElementBuilder.popRemoteElement (lines 274 to 277). -/
def popRemoteElement (b : NewElementBuilder) : Except String NewElementBuilder := do
  let p ← b.popBlock
  (p.2.popElement).map fun q => q.2

end NewElementBuilder

/-- The public builder operations, as driven by the surrounding engine. -/
inductive BOp
  | openElement (tag : String)
  | flushElement
  | closeElement
  | popElement
  | appendText (s : String)
  | appendComment (s : String)
  | appendTrusting (v : JSValue)
  | appendCautious (v : JSValue)
  | pushSimpleBlock
  | pushUpdatableBlock
  | pushBlockList (list : List Nat)
  | popBlock
  | pushRemoteElement (el : Nat) (ns : Option Nat)
  | popRemoteElement
deriving DecidableEq

/-- One public builder operation as a step of the state machine; a
thrown contract violation aborts the run. -/
def runOp (parse : String → Option Nat × Option Nat) (op : BOp)
    (b : NewElementBuilder) : Except String NewElementBuilder :=
  match op with
  | .openElement tag => .ok (b.openElement tag).2
  | .flushElement => b.flushElement
  | .closeElement => b.closeElement
  | .popElement => (b.popElement).map fun p => p.2
  | .appendText s => (b.appendText s).map fun p => p.2
  | .appendComment s => (b.appendComment s).map fun p => p.2
  | .appendTrusting v => (b.appendTrustingDynamicContent parse v).map fun p => p.2
  | .appendCautious v => (b.appendCautiousDynamicContent parse v).map fun p => p.2
  | .pushSimpleBlock => .ok (b.pushSimpleBlock).2
  | .pushUpdatableBlock => .ok (b.pushUpdatableBlock).2
  | .pushBlockList l => .ok (b.pushBlockList l).2
  | .popBlock => (b.popBlock).map fun p => p.2
  | .pushRemoteElement el ns => .ok (b.pushRemoteElement el ns)
  | .popRemoteElement => b.popRemoteElement

/-- A sequence of public builder operations, aborting at the first
contract violation. -/
def runOps (parse : String → Option Nat × Option Nat) :
    List BOp → NewElementBuilder → Except String NewElementBuilder
  | [], b => .ok b
  | op :: ops, b => (runOp parse op b).bind (runOps parse ops)

section HelperLemmas

/-- Dropping while a predicate holds skips a block on which it holds
everywhere. -/
theorem dropWhile_append_of_all {α : Type} (p : α → Bool) (l1 l2 : List α)
    (h : ∀ a ∈ l1, p a = true) :
    List.dropWhile p (l1 ++ l2) = List.dropWhile p l2 := by
  induction l1 with
  | nil => simp
  | cons a l ih =>
      simp only [List.cons_append, List.dropWhile_cons, h a (by simp)]
      exact ih fun x hx => h x (by simp [hx])

/-- Taking while a predicate holds keeps a block on which it holds
everywhere. -/
theorem takeWhile_append_of_all {α : Type} (p : α → Bool) (l1 l2 : List α)
    (h : ∀ a ∈ l1, p a = true) :
    List.takeWhile p (l1 ++ l2) = l1 ++ List.takeWhile p l2 := by
  induction l1 with
  | nil => simp
  | cons a l ih =>
      simp only [List.cons_append, List.takeWhile_cons, h a (by simp)]
      simp [ih fun x hx => h x (by simp [hx])]

/-- newNode never changes the nesting depth. -/
theorem SimpleBlockTracker.newNode_nesting (t : SimpleBlockTracker) (n : Nat) :
    (t.newNode n).nesting = t.nesting := by
  unfold SimpleBlockTracker.newNode
  split <;> rfl

end HelperLemmas

/-- C1: for every tracker of the simple family (simple, updatable and
remote all inherit this behaviour), the nesting depth increments on
openElement and decrements on closeElement, and while the depth is
nonzero both newNode and newBounds leave the tracker, hence its first
and last bounds, entirely unchanged; only at depth zero is last set to
the reported node or bounds (and first too when it was still absent), so
the bounds reflect only direct children. -/
theorem tracker_bounds_gated_by_nesting (t : SimpleBlockTracker) (n bid e : Nat) :
    (t.openElement e).nesting = t.nesting + 1 ∧
    t.closeElement.nesting = t.nesting - 1 ∧
    (t.nesting ≠ 0 →
      t.newNode n = t ∧ t.newBounds bid = t ∧
      (TrackerV.simple t).newNode n = .ok (.simple t) ∧
      (TrackerV.updatable t).newNode n = .ok (.updatable t) ∧
      (TrackerV.remote t).newNode n = .ok (.remote t) ∧
      (TrackerV.simple t).newBounds bid = .simple t ∧
      (TrackerV.updatable t).newBounds bid = .updatable t ∧
      (TrackerV.remote t).newBounds bid = .remote t) ∧
    (t.nesting = 0 →
      (t.newNode n).last = some (BRef.node n) ∧
      (t.newNode n).first = some (t.first.getD (BRef.node n)) ∧
      (t.newBounds bid).last = some (BRef.bounds bid) ∧
      (t.newBounds bid).first = some (t.first.getD (BRef.bounds bid))) := by
  refine ⟨?_, rfl, fun h => ?_, fun h => ?_⟩
  · show (SimpleBlockTracker.mk _ _ _ _ _ _).nesting = t.nesting + 1
    simp [SimpleBlockTracker.openElement, SimpleBlockTracker.newNode_nesting]
  · have hn : t.newNode n = t := by simp [SimpleBlockTracker.newNode, h]
    have hb : t.newBounds bid = t := by simp [SimpleBlockTracker.newBounds, h]
    simp [TrackerV.newNode, TrackerV.newBounds, hn, hb]
  · constructor
    · simp [SimpleBlockTracker.newNode, h]
    constructor
    · cases hf : t.first <;> simp [SimpleBlockTracker.newNode, h, hf]
    constructor
    · simp [SimpleBlockTracker.newBounds, h]
    · cases hf : t.first <;> simp [SimpleBlockTracker.newBounds, h, hf]

/-- C1 witness: a tracker at depth one ignores a reported node; a tracker
at depth zero extends its bounds with it. -/
theorem tracker_bounds_gated_by_nesting_witness :
    (((1 : Int) ≠ 0) ∧
      (SimpleBlockTracker.mk 0 0 none none none 1).newNode 5
        = SimpleBlockTracker.mk 0 0 none none none 1) ∧
    (((0 : Int) = 0) ∧
      ((SimpleBlockTracker.mk 0 0 none none none 0).newNode 5).last
        = some (BRef.node 5)) := by
  constructor
  · exact ⟨by decide,
      ((tracker_bounds_gated_by_nesting ⟨0, 0, none, none, none, 1⟩ 5 6 7).2.2.1
        (by decide)).1⟩
  · exact ⟨rfl,
      ((tracker_bounds_gated_by_nesting ⟨0, 0, none, none, none, 0⟩ 5 6 7).2.2.2
        rfl).1⟩

/-- C8: openElement, closeElement and newNode on a block-list tracker
fail with the assertion messages of the source; consequently, while a
block-list tracker is the current block, appending a text node, closing
an element or flushing a constructed element through the builder fails
with the same contract violations. -/
theorem blockList_direct_mutation_rejected (bt : BlockListTracker) (n e : Nat)
    (b : NewElementBuilder) (s : String) (nd : DomNode)
    (hhead : b.blockStack.head? = some (.blockList bt))
    (hcons : b.constructing = some nd) :
    (TrackerV.blockList bt).openElement e
      = .error "Cannot openElement directly inside a block list" ∧
    (TrackerV.blockList bt).closeElement
      = .error "Cannot closeElement directly inside a block list" ∧
    (TrackerV.blockList bt).newNode n
      = .error "Cannot create a new node directly inside a block list" ∧
    b.appendText s = .error "Cannot create a new node directly inside a block list" ∧
    b.closeElement = .error "Cannot closeElement directly inside a block list" ∧
    b.flushElement = .error "Cannot openElement directly inside a block list" := by
  obtain ⟨rest, hbs⟩ : ∃ rest, b.blockStack = TrackerV.blockList bt :: rest := by
    cases hb : b.blockStack with
    | nil => rw [hb] at hhead; cases hhead
    | cons x xs =>
        rw [hb] at hhead
        simp at hhead
        exact ⟨xs, by rw [hhead]⟩
  refine ⟨rfl, rfl, rfl, ?_, ?_, ?_⟩
  · simp [NewElementBuilder.appendText, NewElementBuilder.didAppendNode, hbs,
      TrackerV.newNode, Except.map]
  · simp [NewElementBuilder.closeElement, NewElementBuilder.willCloseElement, hbs,
      TrackerV.closeElement, Except.map, Bind.bind, Except.bind]
  · simp [NewElementBuilder.flushElement, expectE, hcons, Bind.bind, Except.bind,
      NewElementBuilder.pushElement, NewElementBuilder.didOpenElement, hbs,
      TrackerV.openElement, Except.map]

/-- C8 witness: a builder whose current block is a block-list tracker,
with an element under construction, rejects all direct mutations. -/
theorem blockList_direct_mutation_rejected_witness :
    ((((NewElementBuilder.forInitialRender 0 none).openElement "div").2.pushBlockList []).2.blockStack.head?
        = some (.blockList ⟨3, 0, []⟩) ∧
      (((NewElementBuilder.forInitialRender 0 none).openElement "div").2.pushBlockList []).2.constructing
        = some (DomNode.element "div" 2)) ∧
    ((((NewElementBuilder.forInitialRender 0 none).openElement "div").2.pushBlockList []).2.appendText "hi"
        = .error "Cannot create a new node directly inside a block list") := by
  refine ⟨⟨rfl, rfl⟩, ?_⟩
  exact (blockList_direct_mutation_rejected ⟨3, 0, []⟩ 0 0
    (((NewElementBuilder.forInitialRender 0 none).openElement "div").2.pushBlockList []).2
    "hi" (DomNode.element "div" 2) rfl rfl).2.2.2.1

/-- C10: newBounds and newDestroyable on a block-list tracker silently
discard their argument: the tracker is unchanged, the builder routing
through didAddDestroyable and didAppendBounds returns the builder
unchanged, and destroy never invokes a destroyable so registered. -/
theorem blockList_registrations_discarded (bt : BlockListTracker) (bid d : Nat)
    (b : NewElementBuilder)
    (hhead : b.blockStack.head? = some (.blockList bt))
    (hd : d ∉ bt.boundList) :
    (TrackerV.blockList bt).newBounds bid = .blockList bt ∧
    (TrackerV.blockList bt).newDestroyable d = .blockList bt ∧
    ((TrackerV.blockList bt).newDestroyable d).destroyEvents
      = bt.boundList.map Event.destroyed ∧
    Event.destroyed d ∉ ((TrackerV.blockList bt).newDestroyable d).destroyEvents ∧
    b.didAddDestroyable d = .ok b ∧
    b.didAppendBounds bid = .ok b := by
  obtain ⟨rest, hbs⟩ : ∃ rest, b.blockStack = TrackerV.blockList bt :: rest := by
    cases hb : b.blockStack with
    | nil => rw [hb] at hhead; cases hhead
    | cons x xs =>
        rw [hb] at hhead
        simp at hhead
        exact ⟨xs, by rw [hhead]⟩
  refine ⟨rfl, rfl, rfl, ?_, ?_, ?_⟩
  · intro hmem
    have hdin : d ∈ bt.boundList := by
      simpa [TrackerV.newDestroyable, TrackerV.destroyEvents,
        BlockListTracker.destroyEvents] using hmem
    exact hd hdin
  · have hstep : b.didAddDestroyable d
        = .ok { b with blockStack := TrackerV.blockList bt :: rest } := by
      simp [NewElementBuilder.didAddDestroyable, hbs, TrackerV.newDestroyable]
    rw [hstep, ← hbs]
  · have hstep : b.didAppendBounds bid
        = .ok { b with blockStack := TrackerV.blockList bt :: rest } := by
      simp [NewElementBuilder.didAppendBounds, hbs, TrackerV.newBounds]
    rw [hstep, ← hbs]

/-- C10 witness: a destroyable registered while a block-list tracker is
current is discarded and never destroyed. -/
theorem blockList_registrations_discarded_witness :
    ((((NewElementBuilder.forInitialRender 0 none).pushBlockList [4]).2.blockStack.head?
        = some (.blockList ⟨2, 0, [4]⟩)) ∧ (9 ∉ [4])) ∧
    Event.destroyed 9 ∉ ((TrackerV.blockList ⟨2, 0, [4]⟩).newDestroyable 9).destroyEvents ∧
    ((NewElementBuilder.forInitialRender 0 none).pushBlockList [4]).2.didAddDestroyable 9
      = .ok ((NewElementBuilder.forInitialRender 0 none).pushBlockList [4]).2 := by
  refine ⟨⟨rfl, by decide⟩, ?_, ?_⟩
  · exact (blockList_registrations_discarded ⟨2, 0, [4]⟩ 0 9
      ((NewElementBuilder.forInitialRender 0 none).pushBlockList [4]).2
      rfl (by decide)).2.2.2.1
  · exact (blockList_registrations_discarded ⟨2, 0, [4]⟩ 0 9
      ((NewElementBuilder.forInitialRender 0 none).pushBlockList [4]).2
      rfl (by decide)).2.2.2.2.1

/-- C5 counterexample: for a remote tracker owning one destroyable, the
teardown trace runs the destroyable first and severs (clears) last, so
the tracked range is not detached before the destroyables run. -/
theorem remote_destroy_not_clear_first_counterexample :
    RemoteBlockTracker.destroy (SimpleBlockTracker.mk 0 0 none none (some [7]) 0)
      = [Event.destroyed 7, Event.cleared] ∧
    ¬ (clearedBeforeDestroys
        (RemoteBlockTracker.destroy (SimpleBlockTracker.mk 0 0 none none (some [7]) 0))
          = true) := by
  decide

/-- C5 amended: for every remote tracker, teardown runs the registered
destroyables (in registration order, via the inherited destroy) first
and only then severs the tracked range: the clear is the final event of
the teardown trace and no destroyable runs after it. -/
theorem remote_destroy_clears_after_destroyables (t : SimpleBlockTracker) :
    RemoteBlockTracker.destroy t
      = (t.destroyables.getD []).map Event.destroyed ++ [Event.cleared] ∧
    (RemoteBlockTracker.destroy t).getLast? = some Event.cleared ∧
    noDestroyAfterClear (RemoteBlockTracker.destroy t) = true := by
  refine ⟨rfl, ?_, ?_⟩
  · show ((t.destroyables.getD []).map Event.destroyed ++ [Event.cleared]).getLast?
        = some Event.cleared
    simp
  · show noDestroyAfterClear
        ((t.destroyables.getD []).map Event.destroyed ++ [Event.cleared]) = true
    unfold noDestroyAfterClear
    rw [dropWhile_append_of_all]
    · rfl
    · intro a ha
      simp only [List.mem_map] at ha
      obtain ⟨x, _, hx⟩ := ha
      rw [← hx]
      rfl

/-- C3: reset of an updatable tracker passes every registered
destroyable, in registration order, to the environment didDestroy hook
before the tracked range is removed (the cleared event comes last in the
trace), removes exactly the tracked range from the child list, resets
first, last and the destroyable list to empty, and returns the sibling
node that immediately followed the cleared range. -/
theorem updatable_reset_teardown_then_clear (t : SimpleBlockTracker)
    (res : Nat → Option Nat) (pre mid post : List Nat) (f l : Nat)
    (hf : t.first = some (BRef.node f)) (hl : t.last = some (BRef.node l))
    (hfpre : f ∉ pre) (hlf : l ≠ f) (hlmid : l ∉ mid) :
    UpdatableBlockTracker.reset t res (pre ++ f :: (mid ++ l :: post))
      = ((t.destroyables.getD []).map Event.didDestroy ++ [Event.cleared],
         { t with first := none, last := none, destroyables := none, nesting := 0 },
         pre ++ post, post.head?) := by
  have hprefu : ∀ a ∈ pre, (a != f) = true := by
    intro a ha
    simp only [bne_iff_ne, ne_eq]
    intro hEq
    exact hfpre (hEq ▸ ha)
  have hmidl : ∀ a ∈ f :: mid, (a != l) = true := by
    intro a ha
    simp only [bne_iff_ne, ne_eq]
    intro hEq
    rcases List.mem_cons.mp ha with h1 | h2
    · exact hlf (hEq.symm.trans h1)
    · exact hlmid (hEq ▸ h2)
  have hclear : clearRange (pre ++ f :: (mid ++ l :: post)) (some f) (some l)
      = (pre ++ post, post.head?) := by
    unfold clearRange
    have h1 : List.takeWhile (fun x => x != f) (pre ++ f :: (mid ++ l :: post)) = pre := by
      rw [takeWhile_append_of_all (fun x => x != f) pre _ hprefu]
      simp [List.takeWhile_cons]
    have h2 : List.dropWhile (fun x => x != f) (pre ++ f :: (mid ++ l :: post))
        = f :: (mid ++ l :: post) := by
      rw [dropWhile_append_of_all (fun x => x != f) pre _ hprefu]
      simp [List.dropWhile_cons]
    have h3 : List.dropWhile (fun x => x != l) (f :: (mid ++ l :: post))
        = l :: post := by
      have hsplit : f :: (mid ++ l :: post) = (f :: mid) ++ l :: post := by simp
      rw [hsplit, dropWhile_append_of_all (fun x => x != l) (f :: mid) _ hmidl]
      simp [List.dropWhile_cons]
    simp only [h1, h2, h3, List.drop_one, List.tail_cons]
  unfold UpdatableBlockTracker.reset
  simp only [SimpleBlockTracker.firstNode, SimpleBlockTracker.lastNode, hf, hl, hclear]

/-- C3 witness: a concrete updatable tracker with two destroyables and a
three node range inside a five node child list. -/
theorem updatable_reset_teardown_then_clear_witness :
    ((SimpleBlockTracker.mk 5 0 (some (BRef.node 10)) (some (BRef.node 12)) (some [3, 4]) 0).first
        = some (BRef.node 10) ∧
      (10 ∉ [9]) ∧ (12 : Nat) ≠ 10 ∧ (12 ∉ [11])) ∧
    UpdatableBlockTracker.reset
        (SimpleBlockTracker.mk 5 0 (some (BRef.node 10)) (some (BRef.node 12)) (some [3, 4]) 0)
        (fun _ => none) [9, 10, 11, 12, 13]
      = ([Event.didDestroy 3, Event.didDestroy 4, Event.cleared],
         SimpleBlockTracker.mk 5 0 none none none 0, [9, 13], some 13) := by
  refine ⟨⟨rfl, by decide, by decide, by decide⟩, ?_⟩
  exact updatable_reset_teardown_then_clear
    (SimpleBlockTracker.mk 5 0 (some (BRef.node 10)) (some (BRef.node 12)) (some [3, 4]) 0)
    (fun _ => none) [9] [11] [13] 10 12 rfl rfl (by decide) (by decide) (by decide)

/-- C2: for a plain string value (not a realized node and not marked
safe), cautious dynamic content inserts exactly one new text node whose
contents are the string itself, untouched by any parsing, with bounds
that single node, while trusting dynamic content with the same value
issues one insertHTMLBefore of the string and its result carries the
bounds reported by the markup parser (possibly spanning several nodes). -/
theorem cautious_escapes_trusting_parses (b : NewElementBuilder)
    (parse : String → Option Nat × Option Nat) (s : String)
    (tv : TrackerV) (t : SimpleBlockTracker) (rest : List TrackerV)
    (hbs : b.blockStack = tv :: rest) (hsbt : tv.sbt? = some t) :
    ((b.appendCautiousDynamicContent parse (.str s)).map fun p => (p.1, p.2.trace))
      = .ok (.textContent (.single b.element b.fresh) s,
             b.trace ++ [DomOp.insertBefore b.element (DomNode.text s b.fresh) b.nextSibling]) ∧
    ((b.appendTrustingDynamicContent parse (.str s)).map fun p => (p.1, p.2.trace))
      = .ok (.trustedHTML (.parsed ⟨b.element, (parse s).1, (parse s).2⟩) s,
             b.trace ++ [DomOp.insertHTML b.element b.nextSibling s]) := by
  rcases tv with t0 | t0 | t0 | bt
  all_goals try simp [TrackerV.sbt?] at hsbt
  all_goals constructor
  all_goals first
    | (simp [NewElementBuilder.appendCautiousDynamicContent,
        NewElementBuilder.appendCautiousDynamicContentRaw, isEmpty, isString,
        JSValue.asString, NewElementBuilder.appendText,
        NewElementBuilder.didAppendNode, hbs, TrackerV.newNode, Except.map,
        DomNode.nid]
       done)
    | (simp [NewElementBuilder.appendTrustingDynamicContent,
        NewElementBuilder.appendTrustingDynamicContentRaw, isEmpty, isSafeString,
        isString, JSValue.asString, NewElementBuilder.appendHTML,
        NewElementBuilder.didAppendBounds, hbs, TrackerV.newBounds, Except.map]
       done)

/-- C2 witness: the plain string value is the markup-looking string of
the spec. -/
theorem cautious_escapes_trusting_parses_witness :
    ((NewElementBuilder.forInitialRender 0 none).blockStack
        = TrackerV.simple (SimpleBlockTracker.mk 1 0 none none none 0) :: [] ∧
      (TrackerV.simple (SimpleBlockTracker.mk 1 0 none none none 0)).sbt?
        = some (SimpleBlockTracker.mk 1 0 none none none 0)) ∧
    (((NewElementBuilder.forInitialRender 0 none).appendCautiousDynamicContent
        (fun _ => (some 100, some 101)) (.str "<b>x</b>")).map fun p => (p.1, p.2.trace))
      = .ok (.textContent (.single 0 2) "<b>x</b>",
             [DomOp.insertBefore 0 (DomNode.text "<b>x</b>" 2) none]) ∧
    (((NewElementBuilder.forInitialRender 0 none).appendTrustingDynamicContent
        (fun _ => (some 100, some 101)) (.str "<b>x</b>")).map fun p => (p.1, p.2.trace))
      = .ok (.trustedHTML (.parsed ⟨0, some 100, some 101⟩) "<b>x</b>",
             [DomOp.insertHTML 0 none "<b>x</b>"]) := by
  refine ⟨⟨rfl, rfl⟩, ?_, ?_⟩
  · exact (cautious_escapes_trusting_parses (NewElementBuilder.forInitialRender 0 none)
      (fun _ => (some 100, some 101)) "<b>x</b>"
      (TrackerV.simple (SimpleBlockTracker.mk 1 0 none none none 0))
      (SimpleBlockTracker.mk 1 0 none none none 0) [] rfl rfl).1
  · exact (cautious_escapes_trusting_parses (NewElementBuilder.forInitialRender 0 none)
      (fun _ => (some 100, some 101)) "<b>x</b>"
      (TrackerV.simple (SimpleBlockTracker.mk 1 0 none none none 0))
      (SimpleBlockTracker.mk 1 0 none none none 0) [] rfl rfl).2

/-- C4: popping a block whose simple family tracker still has no first
bound (and is at depth zero) appends exactly one empty comment node
through the builder, and that comment becomes the bounds of the popped
tracker with first = last = the comment node; when first is already
present, nothing is appended and the tracker is popped unchanged. -/
theorem finalize_empty_block_appends_comment (b : NewElementBuilder)
    (tv : TrackerV) (t : SimpleBlockTracker) (rest : List TrackerV)
    (hbs : b.blockStack = tv :: rest) (hsbt : tv.sbt? = some t) (hn : t.nesting = 0) :
    (t.first = none →
      (b.popBlock).map (fun p => (p.1.sbt?, p.2.trace, p.2.blockStack))
        = .ok (some { t with first := some (BRef.node b.fresh),
                             last := some (BRef.node b.fresh) },
               b.trace ++ [DomOp.insertBefore b.element (DomNode.comment "" b.fresh) b.nextSibling],
               rest)) ∧
    (∀ x, t.first = some x → b.popBlock = .ok (tv, { b with blockStack := rest })) := by
  rcases tv with t0 | t0 | t0 | bt
  all_goals try simp [TrackerV.sbt?] at hsbt
  all_goals subst hsbt
  all_goals constructor
  all_goals first
    | (intro hfirst
       simp [NewElementBuilder.popBlock, NewElementBuilder.finalizeCurrentBlock,
         NewElementBuilder.block, expectE, hbs, hfirst, hn,
         NewElementBuilder.appendComment, NewElementBuilder.didAppendNode,
         TrackerV.newNode, SimpleBlockTracker.newNode, TrackerV.sbt?,
         Except.map, Bind.bind, Except.bind, DomNode.nid])
    | (intro x hfirst
       simp [NewElementBuilder.popBlock, NewElementBuilder.finalizeCurrentBlock,
         NewElementBuilder.block, expectE, hbs, hfirst,
         Except.map, Bind.bind, Except.bind])

/-- C4 witness: popping the base block of a fresh builder, which has no
content, appends one empty comment that becomes its bounds. -/
theorem finalize_empty_block_appends_comment_witness :
    ((NewElementBuilder.forInitialRender 0 none).blockStack
        = TrackerV.simple (SimpleBlockTracker.mk 1 0 none none none 0) :: [] ∧
      (SimpleBlockTracker.mk 1 0 none none none 0).nesting = 0 ∧
      (SimpleBlockTracker.mk 1 0 none none none 0).first = none) ∧
    ((NewElementBuilder.forInitialRender 0 none).popBlock).map
        (fun p => (p.1.sbt?, p.2.trace, p.2.blockStack))
      = .ok (some (SimpleBlockTracker.mk 1 0 (some (BRef.node 2)) (some (BRef.node 2)) none 0),
             [DomOp.insertBefore 0 (DomNode.comment "" 2) none], []) := by
  refine ⟨⟨rfl, rfl, rfl⟩, ?_⟩
  exact (finalize_empty_block_appends_comment (NewElementBuilder.forInitialRender 0 none)
    (TrackerV.simple (SimpleBlockTracker.mk 1 0 none none none 0))
    (SimpleBlockTracker.mk 1 0 none none none 0) [] rfl rfl rfl).1 rfl

/-- C6 counterexample: openElement performs no check of the constructing
state; with an element already under construction, a second openElement
succeeds (the run produces no error), creates the new element and
overwrites the constructing state, instead of failing. -/
theorem openElement_while_constructing_proceeds :
    (((NewElementBuilder.forInitialRender 0 none).openElement "div").2.constructing
        = some (DomNode.element "div" 2)) ∧
    ((((NewElementBuilder.forInitialRender 0 none).openElement "div").2.openElement "span").1
        = DomNode.element "span" 3) ∧
    ((((NewElementBuilder.forInitialRender 0 none).openElement "div").2.openElement "span").2.constructing
        = some (DomNode.element "span" 3)) ∧
    (runOps (fun _ => (none, none)) [BOp.openElement "div", BOp.openElement "span"]
        (NewElementBuilder.forInitialRender 0 none)).toOption.isSome = true := by
  refine ⟨rfl, rfl, rfl, rfl⟩

/-- C6 amended: calling openElement while an element is already under
construction does not fail: the builder creates the new element,
overwrites constructing and the operations capability with the new ones,
and returns the new element. -/
theorem openElement_overwrites_constructing (b : NewElementBuilder) (tag : String)
    (nd : DomNode) (h : b.constructing = some nd) :
    b.openElement tag
      = (DomNode.element tag b.fresh,
         { b with fresh := b.fresh + 1,
                  constructing := some (DomNode.element tag b.fresh),
                  operations := some () }) := rfl

/-- C6 amended witness: a builder already constructing a div accepts a
second openElement. -/
theorem openElement_overwrites_constructing_witness :
    (((NewElementBuilder.forInitialRender 0 none).openElement "div").2.constructing
        = some (DomNode.element "div" 2)) ∧
    ((NewElementBuilder.forInitialRender 0 none).openElement "div").2.openElement "span"
      = (DomNode.element "span" 3,
         { ((NewElementBuilder.forInitialRender 0 none).openElement "div").2 with
             fresh := 4,
             constructing := some (DomNode.element "span" 3),
             operations := some () }) := by
  refine ⟨rfl, ?_⟩
  exact openElement_overwrites_constructing
    ((NewElementBuilder.forInitialRender 0 none).openElement "div").2 "span"
    (DomNode.element "div" 2) rfl

/-- C7: pushRemoteElement registers the new remote tracker only as a
destroyable of the enclosing tracker; the enclosing first and last are
untouched whatever its state (the remote tracker is never a bounds
contributor), while pushSimpleBlock, pushUpdatableBlock and
pushBlockList register the new tracker through both newDestroyable and
newBounds (at depth zero the enclosing last becomes the new tracker). -/
theorem remote_tracker_not_bounds_contributor (b : NewElementBuilder)
    (tv : TrackerV) (t : SimpleBlockTracker) (rest : List TrackerV)
    (el : Nat) (ns : Option Nat) (list : List Nat)
    (hbs : b.blockStack = tv :: rest) (hsbt : tv.sbt? = some t) :
    ((b.pushRemoteElement el ns).blockStack
        = TrackerV.remote (SimpleBlockTracker.mk b.fresh el none none none 0)
            :: tv.newDestroyable b.fresh :: rest) ∧
    ((tv.newDestroyable b.fresh).sbt?
        = some { t with destroyables := some (t.destroyables.getD [] ++ [b.fresh]) }) ∧
    ((b.pushSimpleBlock).2.blockStack
        = TrackerV.simple (SimpleBlockTracker.mk b.fresh b.element none none none 0)
            :: (tv.newDestroyable b.fresh).newBounds b.fresh :: rest) ∧
    ((b.pushUpdatableBlock).2.blockStack
        = TrackerV.updatable (SimpleBlockTracker.mk b.fresh b.element none none none 0)
            :: (tv.newDestroyable b.fresh).newBounds b.fresh :: rest) ∧
    ((b.pushBlockList list).2.blockStack
        = TrackerV.blockList (BlockListTracker.mk b.fresh b.element list)
            :: (tv.newDestroyable b.fresh).newBounds b.fresh :: rest) ∧
    (t.nesting = 0 →
      ((tv.newDestroyable b.fresh).newBounds b.fresh).sbt?
        = some { t with
            destroyables := some (t.destroyables.getD [] ++ [b.fresh]),
            first := some (t.first.getD (BRef.bounds b.fresh)),
            last := some (BRef.bounds b.fresh) }) := by
  rcases tv with t0 | t0 | t0 | bt
  all_goals try simp [TrackerV.sbt?] at hsbt
  all_goals subst hsbt
  all_goals refine ⟨?_, ?_, ?_, ?_, ?_, fun hn => ?_⟩
  all_goals first
    | (simp [NewElementBuilder.pushRemoteElement, NewElementBuilder.pushElement,
        NewElementBuilder.pushBlockTracker, NewElementBuilder.pushSimpleBlock,
        NewElementBuilder.pushUpdatableBlock, NewElementBuilder.pushBlockList,
        TrackerV.oid, hbs]
       done)
    | (simp [TrackerV.newDestroyable, TrackerV.sbt?, SimpleBlockTracker.newDestroyable]
       done)
    | (cases hf : t0.first
       all_goals simp [TrackerV.newDestroyable, TrackerV.newBounds, TrackerV.sbt?,
         SimpleBlockTracker.newDestroyable, SimpleBlockTracker.newBounds, hn, hf]
       done)

/-- C7 witness: pushing a remote and the three block kinds over the base
tracker of a fresh builder. -/
theorem remote_tracker_not_bounds_contributor_witness :
    ((NewElementBuilder.forInitialRender 0 none).blockStack
        = TrackerV.simple (SimpleBlockTracker.mk 1 0 none none none 0) :: [] ∧
      (SimpleBlockTracker.mk 1 0 none none none 0).nesting = 0) ∧
    (((NewElementBuilder.forInitialRender 0 none).pushRemoteElement 9 none).blockStack
        = TrackerV.remote (SimpleBlockTracker.mk 2 9 none none none 0)
            :: (TrackerV.simple (SimpleBlockTracker.mk 1 0 none none none 0)).newDestroyable 2
            :: []) ∧
    (((TrackerV.simple (SimpleBlockTracker.mk 1 0 none none none 0)).newDestroyable 2).sbt?
        = some (SimpleBlockTracker.mk 1 0 none none (some [2]) 0)) := by
  refine ⟨⟨rfl, rfl⟩, ?_, ?_⟩
  · exact (remote_tracker_not_bounds_contributor (NewElementBuilder.forInitialRender 0 none)
      (TrackerV.simple (SimpleBlockTracker.mk 1 0 none none none 0))
      (SimpleBlockTracker.mk 1 0 none none none 0) [] 9 none [] rfl rfl).1
  · exact (remote_tracker_not_bounds_contributor (NewElementBuilder.forInitialRender 0 none)
      (TrackerV.simple (SimpleBlockTracker.mk 1 0 none none none 0))
      (SimpleBlockTracker.mk 1 0 none none none 0) [] 9 none [] rfl rfl).2.1

/-- The balance invariant of the two cursor stacks. -/
def stacksBalanced (b : NewElementBuilder) : Prop :=
  b.elementStack.length = b.nextSiblingStack.length

section StackLemmas

/-- Inversion of a successful Except map. -/
theorem exceptMap_ok {α β : Type} (x : Except String α) (f : α → β) (r : β)
    (h : x.map f = .ok r) : ∃ a, x = .ok a ∧ r = f a := by
  cases x with
  | error e => simp [Except.map] at h
  | ok a =>
      simp [Except.map] at h
      exact ⟨a, rfl, h.symm⟩

/-- Inversion of a successful Except bind. -/
theorem exceptBind_ok {α β : Type} (x : Except String α) (f : α → Except String β) (r : β)
    (h : (x >>= f) = .ok r) : ∃ a, x = .ok a ∧ f a = .ok r := by
  cases x with
  | error e => simp [Bind.bind, Except.bind] at h
  | ok a => exact ⟨a, rfl, h⟩

/-- didAppendNode changes only the block stack. -/
theorem NewElementBuilder.didAppendNode_stacks (b b' : NewElementBuilder) (n : Nat)
    (h : b.didAppendNode n = .ok b') :
    b'.elementStack = b.elementStack ∧ b'.nextSiblingStack = b.nextSiblingStack := by
  unfold NewElementBuilder.didAppendNode at h
  split at h
  · simp at h
  · rcases exceptMap_ok _ _ _ h with ⟨tv', _, hb⟩
    subst hb
    exact ⟨rfl, rfl⟩

/-- didAppendBounds changes only the block stack. -/
theorem NewElementBuilder.didAppendBounds_stacks (b b' : NewElementBuilder) (n : Nat)
    (h : b.didAppendBounds n = .ok b') :
    b'.elementStack = b.elementStack ∧ b'.nextSiblingStack = b.nextSiblingStack := by
  unfold NewElementBuilder.didAppendBounds at h
  split at h
  · simp at h
  · simp only [Except.ok.injEq] at h
    subst h
    exact ⟨rfl, rfl⟩

/-- didOpenElement changes only the block stack. -/
theorem NewElementBuilder.didOpenElement_stacks (b b' : NewElementBuilder) (n : Nat)
    (h : b.didOpenElement n = .ok b') :
    b'.elementStack = b.elementStack ∧ b'.nextSiblingStack = b.nextSiblingStack := by
  unfold NewElementBuilder.didOpenElement at h
  split at h
  · simp at h
  · rcases exceptMap_ok _ _ _ h with ⟨tv', _, hb⟩
    subst hb
    exact ⟨rfl, rfl⟩

/-- willCloseElement changes only the block stack. -/
theorem NewElementBuilder.willCloseElement_stacks (b b' : NewElementBuilder)
    (h : b.willCloseElement = .ok b') :
    b'.elementStack = b.elementStack ∧ b'.nextSiblingStack = b.nextSiblingStack := by
  unfold NewElementBuilder.willCloseElement at h
  split at h
  · simp at h
  · rcases exceptMap_ok _ _ _ h with ⟨tv', _, hb⟩
    subst hb
    exact ⟨rfl, rfl⟩

/-- appendText leaves the cursor stacks unchanged. -/
theorem NewElementBuilder.appendText_stacks (b : NewElementBuilder) (s : String)
    (p : DomNode × NewElementBuilder) (h : b.appendText s = .ok p) :
    p.2.elementStack = b.elementStack ∧ p.2.nextSiblingStack = b.nextSiblingStack := by
  unfold NewElementBuilder.appendText at h
  rcases exceptMap_ok _ _ _ h with ⟨b1, hb1, hp⟩
  subst hp
  simpa using NewElementBuilder.didAppendNode_stacks _ _ _ hb1

/-- appendComment leaves the cursor stacks unchanged. -/
theorem NewElementBuilder.appendComment_stacks (b : NewElementBuilder) (s : String)
    (p : DomNode × NewElementBuilder) (h : b.appendComment s = .ok p) :
    p.2.elementStack = b.elementStack ∧ p.2.nextSiblingStack = b.nextSiblingStack := by
  unfold NewElementBuilder.appendComment at h
  rcases exceptMap_ok _ _ _ h with ⟨b1, hb1, hp⟩
  subst hp
  simpa using NewElementBuilder.didAppendNode_stacks _ _ _ hb1

/-- appendNode leaves the cursor stacks unchanged. -/
theorem NewElementBuilder.appendNode_stacks (b : NewElementBuilder) (n : DomNode)
    (p : DomNode × NewElementBuilder) (h : b.appendNode n = .ok p) :
    p.2.elementStack = b.elementStack ∧ p.2.nextSiblingStack = b.nextSiblingStack := by
  unfold NewElementBuilder.appendNode at h
  rcases exceptMap_ok _ _ _ h with ⟨b1, hb1, hp⟩
  subst hp
  simpa using NewElementBuilder.didAppendNode_stacks _ _ _ hb1

/-- appendHTML leaves the cursor stacks unchanged. -/
theorem NewElementBuilder.appendHTML_stacks (b : NewElementBuilder)
    (parse : String → Option Nat × Option Nat) (s : String)
    (p : HtmlBounds × NewElementBuilder) (h : b.appendHTML parse s = .ok p) :
    p.2.elementStack = b.elementStack ∧ p.2.nextSiblingStack = b.nextSiblingStack := by
  unfold NewElementBuilder.appendHTML at h
  rcases exceptMap_ok _ _ _ h with ⟨b1, hb1, hp⟩
  subst hp
  simpa using NewElementBuilder.didAppendBounds_stacks _ _ _ hb1

/-- The trusting resolver leaves the cursor stacks unchanged. -/
theorem NewElementBuilder.appendTrusting_stacks (b : NewElementBuilder)
    (parse : String → Option Nat × Option Nat) (v : JSValue)
    (p : DynamicContent × NewElementBuilder)
    (h : b.appendTrustingDynamicContentRaw parse v = .ok p) :
    p.2.elementStack = b.elementStack ∧ p.2.nextSiblingStack = b.nextSiblingStack := by
  unfold NewElementBuilder.appendTrustingDynamicContentRaw at h
  split at h
  · rcases exceptMap_ok _ _ _ h with ⟨q, hq, hp⟩
    subst hp
    simpa using NewElementBuilder.appendNode_stacks _ _ _ hq
  · rcases exceptMap_ok _ _ _ h with ⟨q, hq, hp⟩
    subst hp
    simpa using NewElementBuilder.appendHTML_stacks _ _ _ _ hq

/-- The cautious resolver leaves the cursor stacks unchanged. -/
theorem NewElementBuilder.appendCautious_stacks (b : NewElementBuilder)
    (parse : String → Option Nat × Option Nat) (v : JSValue)
    (p : DynamicContent × NewElementBuilder)
    (h : b.appendCautiousDynamicContentRaw parse v = .ok p) :
    p.2.elementStack = b.elementStack ∧ p.2.nextSiblingStack = b.nextSiblingStack := by
  unfold NewElementBuilder.appendCautiousDynamicContentRaw at h
  split at h
  · rcases exceptMap_ok _ _ _ h with ⟨q, hq, hp⟩
    subst hp
    simpa using NewElementBuilder.appendNode_stacks _ _ _ hq
  · rcases exceptMap_ok _ _ _ h with ⟨q, hq, hp⟩
    subst hp
    simpa using NewElementBuilder.appendHTML_stacks _ _ _ _ hq
  · rcases exceptMap_ok _ _ _ h with ⟨q, hq, hp⟩
    subst hp
    simpa using NewElementBuilder.appendText_stacks _ _ _ hq

/-- flushElement pushes one frame on each cursor stack. -/
theorem NewElementBuilder.flushElement_stacks (b b' : NewElementBuilder)
    (h : b.flushElement = .ok b') :
    ∃ e, b'.elementStack = e :: b.elementStack ∧
      b'.nextSiblingStack = none :: b.nextSiblingStack := by
  unfold NewElementBuilder.flushElement at h
  rcases exceptBind_ok _ _ _ h with ⟨element, _, hrest⟩
  have hs := NewElementBuilder.didOpenElement_stacks _ _ _ hrest
  exact ⟨element.nid, by simpa [NewElementBuilder.pushElement] using hs.1,
    by simpa [NewElementBuilder.pushElement] using hs.2⟩

/-- popElement pops one frame from each cursor stack. -/
theorem NewElementBuilder.popElement_stacks (b : NewElementBuilder)
    (p : Option Nat × NewElementBuilder) (h : b.popElement = .ok p) :
    p.2.elementStack = b.elementStack.tail ∧
      p.2.nextSiblingStack = b.nextSiblingStack.tail := by
  simp only [NewElementBuilder.popElement] at h
  split at h
  · simp at h
  · simp only [Except.ok.injEq] at h
    subst h
    exact ⟨rfl, rfl⟩

/-- pushBlockTracker leaves the cursor stacks unchanged. -/
theorem NewElementBuilder.pushBlockTracker_stacks (b : NewElementBuilder)
    (tv : TrackerV) (r : Bool) :
    (b.pushBlockTracker tv r).elementStack = b.elementStack ∧
      (b.pushBlockTracker tv r).nextSiblingStack = b.nextSiblingStack := by
  unfold NewElementBuilder.pushBlockTracker
  cases hbs : b.blockStack <;> simp [hbs]

/-- pushBlockList leaves the cursor stacks unchanged. -/
theorem NewElementBuilder.pushBlockList_stacks (b : NewElementBuilder) (l : List Nat) :
    (b.pushBlockList l).2.elementStack = b.elementStack ∧
      (b.pushBlockList l).2.nextSiblingStack = b.nextSiblingStack := by
  unfold NewElementBuilder.pushBlockList
  cases hbs : b.blockStack <;> simp [hbs]

/-- finalizeCurrentBlock leaves the cursor stacks unchanged. -/
theorem NewElementBuilder.finalizeCurrentBlock_stacks (b b' : NewElementBuilder)
    (h : b.finalizeCurrentBlock = .ok b') :
    b'.elementStack = b.elementStack ∧ b'.nextSiblingStack = b.nextSiblingStack := by
  unfold NewElementBuilder.finalizeCurrentBlock at h
  rcases exceptBind_ok _ _ _ h with ⟨tv, _, hrest⟩
  rcases tv with t0 | t0 | t0 | bt
  all_goals dsimp only at hrest
  case blockList =>
    simp only [Except.ok.injEq] at hrest
    subst hrest
    exact ⟨rfl, rfl⟩
  all_goals
    split at hrest
  all_goals first
    | (rcases exceptMap_ok _ _ _ hrest with ⟨q, hq, hb⟩
       subst hb
       simpa using NewElementBuilder.appendComment_stacks _ _ _ hq)
    | (simp only [Except.ok.injEq] at hrest
       subst hrest
       exact ⟨rfl, rfl⟩)

/-- popBlock leaves the cursor stacks unchanged. -/
theorem NewElementBuilder.popBlock_stacks (b : NewElementBuilder)
    (p : TrackerV × NewElementBuilder) (h : b.popBlock = .ok p) :
    p.2.elementStack = b.elementStack ∧ p.2.nextSiblingStack = b.nextSiblingStack := by
  unfold NewElementBuilder.popBlock at h
  rcases exceptBind_ok _ _ _ h with ⟨b1, hb1, hrest⟩
  have hs := NewElementBuilder.finalizeCurrentBlock_stacks _ _ hb1
  split at hrest
  · simp at hrest
  · simp only [Except.ok.injEq] at hrest
    subst hrest
    exact hs

/-- pushRemoteElement pushes one frame on each cursor stack. -/
theorem NewElementBuilder.pushRemoteElement_stacks (b : NewElementBuilder)
    (el : Nat) (ns : Option Nat) :
    (b.pushRemoteElement el ns).elementStack = el :: b.elementStack ∧
      (b.pushRemoteElement el ns).nextSiblingStack = ns :: b.nextSiblingStack := by
  unfold NewElementBuilder.pushRemoteElement
  have hs := NewElementBuilder.pushBlockTracker_stacks
    { (b.pushElement el ns) with fresh := (b.pushElement el ns).fresh + 1 }
    (TrackerV.remote (SimpleBlockTracker.mk (b.pushElement el ns).fresh el none none none 0))
    true
  exact ⟨by simpa [NewElementBuilder.pushElement] using hs.1,
    by simpa [NewElementBuilder.pushElement] using hs.2⟩

end StackLemmas

/-- One successful public operation preserves the balance of the element
and next-sibling stacks. -/
theorem runOp_balanced (parse : String → Option Nat × Option Nat) (op : BOp)
    (b b' : NewElementBuilder) (hb : stacksBalanced b)
    (h : runOp parse op b = .ok b') : stacksBalanced b' := by
  cases op with
  | openElement tag =>
      simp only [runOp, Except.ok.injEq] at h
      subst h
      simpa [stacksBalanced, NewElementBuilder.openElement] using hb
  | flushElement =>
      simp only [runOp] at h
      rcases NewElementBuilder.flushElement_stacks _ _ h with ⟨e, h1, h2⟩
      simp [stacksBalanced, h1, h2]
      exact hb
  | closeElement =>
      simp only [runOp] at h
      unfold NewElementBuilder.closeElement at h
      rcases exceptBind_ok _ _ _ h with ⟨b1, hw, hrest⟩
      have hs := NewElementBuilder.willCloseElement_stacks _ _ hw
      rcases exceptMap_ok _ _ _ hrest with ⟨p, hp, hb'⟩
      subst hb'
      have ht := NewElementBuilder.popElement_stacks _ _ hp
      simp [stacksBalanced, ht.1, ht.2, hs.1, hs.2]
      have := hb
      simp [stacksBalanced] at this
      omega
  | popElement =>
      simp only [runOp] at h
      rcases exceptMap_ok _ _ _ h with ⟨p, hp, hb'⟩
      subst hb'
      have ht := NewElementBuilder.popElement_stacks _ _ hp
      simp [stacksBalanced, ht.1, ht.2]
      have := hb
      simp [stacksBalanced] at this
      omega
  | appendText s =>
      simp only [runOp] at h
      rcases exceptMap_ok _ _ _ h with ⟨p, hp, hb'⟩
      subst hb'
      have ht := NewElementBuilder.appendText_stacks _ _ _ hp
      simpa [stacksBalanced, ht.1, ht.2] using hb
  | appendComment s =>
      simp only [runOp] at h
      rcases exceptMap_ok _ _ _ h with ⟨p, hp, hb'⟩
      subst hb'
      have ht := NewElementBuilder.appendComment_stacks _ _ _ hp
      simpa [stacksBalanced, ht.1, ht.2] using hb
  | appendTrusting v =>
      simp only [runOp, NewElementBuilder.appendTrustingDynamicContent] at h
      rcases exceptMap_ok _ _ _ h with ⟨p, hp, hb'⟩
      subst hb'
      have ht := NewElementBuilder.appendTrusting_stacks _ _ _ _ hp
      simpa [stacksBalanced, ht.1, ht.2] using hb
  | appendCautious v =>
      simp only [runOp, NewElementBuilder.appendCautiousDynamicContent] at h
      rcases exceptMap_ok _ _ _ h with ⟨p, hp, hb'⟩
      subst hb'
      have ht := NewElementBuilder.appendCautious_stacks _ _ _ _ hp
      simpa [stacksBalanced, ht.1, ht.2] using hb
  | pushSimpleBlock =>
      simp only [runOp, Except.ok.injEq] at h
      subst h
      have hs := NewElementBuilder.pushBlockTracker_stacks
        { b with fresh := b.fresh + 1 }
        (TrackerV.simple (SimpleBlockTracker.mk b.fresh b.element none none none 0)) false
      simpa [stacksBalanced, NewElementBuilder.pushSimpleBlock, hs.1, hs.2] using hb
  | pushUpdatableBlock =>
      simp only [runOp, Except.ok.injEq] at h
      subst h
      have hs := NewElementBuilder.pushBlockTracker_stacks
        { b with fresh := b.fresh + 1 }
        (TrackerV.updatable (SimpleBlockTracker.mk b.fresh b.element none none none 0)) false
      simpa [stacksBalanced, NewElementBuilder.pushUpdatableBlock, hs.1, hs.2] using hb
  | pushBlockList l =>
      simp only [runOp, Except.ok.injEq] at h
      subst h
      have hs := NewElementBuilder.pushBlockList_stacks b l
      simpa [stacksBalanced, hs.1, hs.2] using hb
  | popBlock =>
      simp only [runOp] at h
      rcases exceptMap_ok _ _ _ h with ⟨p, hp, hb'⟩
      subst hb'
      have ht := NewElementBuilder.popBlock_stacks _ _ hp
      simpa [stacksBalanced, ht.1, ht.2] using hb
  | pushRemoteElement el ns =>
      simp only [runOp, Except.ok.injEq] at h
      subst h
      have hs := NewElementBuilder.pushRemoteElement_stacks b el ns
      simp [stacksBalanced, hs.1, hs.2]
      exact hb
  | popRemoteElement =>
      simp only [runOp] at h
      unfold NewElementBuilder.popRemoteElement at h
      rcases exceptBind_ok _ _ _ h with ⟨p, hp, hrest⟩
      have hs := NewElementBuilder.popBlock_stacks _ _ hp
      rcases exceptMap_ok _ _ _ hrest with ⟨q, hq, hb'⟩
      subst hb'
      have ht := NewElementBuilder.popElement_stacks _ _ hq
      simp [stacksBalanced, ht.1, ht.2, hs.1, hs.2]
      have := hb
      simp [stacksBalanced] at this
      omega

/-- A successful run of public operations preserves the balance. -/
theorem runOps_balanced (parse : String → Option Nat × Option Nat) (ops : List BOp) :
    ∀ b b', stacksBalanced b → runOps parse ops b = .ok b' → stacksBalanced b' := by
  induction ops with
  | nil =>
      intro b b' hb h
      simp only [runOps, Except.ok.injEq] at h
      exact h ▸ hb
  | cons op ops ih =>
      intro b b' hb h
      simp only [runOps] at h
      rcases exceptBind_ok _ _ _ h with ⟨b1, h1, h2⟩
      exact ih b1 b' (runOp_balanced parse op b b1 hb h1) h2

/-- C9: at every point of any successful sequence of public builder
operations from the initial builder (a failed sequence aborts at the
contract violation, including popping past the base frame), the element
stack and the next-sibling stack have equal length: the constructor,
pushElement via flushElement and pushRemoteElement, and popElement each
push or pop both stacks together. -/
theorem element_and_sibling_stacks_balanced (parse : String → Option Nat × Option Nat)
    (parent : Nat) (ns : Option Nat) (ops : List BOp) (b : NewElementBuilder)
    (h : runOps parse ops (NewElementBuilder.forInitialRender parent ns) = .ok b) :
    b.elementStack.length = b.nextSiblingStack.length :=
  runOps_balanced parse ops _ b (by
    simp [stacksBalanced, NewElementBuilder.forInitialRender,
      NewElementBuilder.pushSimpleBlock, NewElementBuilder.pushBlockTracker]) h

/-- C9 witness: a concrete successful run (open, flush, text, close)
keeps both stacks at equal length. -/
theorem element_and_sibling_stacks_balanced_witness :
    runOps (fun _ => (none, none))
        [BOp.openElement "div", BOp.flushElement, BOp.appendText "hi", BOp.closeElement]
        (NewElementBuilder.forInitialRender 0 none)
      = .ok (NewElementBuilder.mk 0 none none none [0] [none]
          [TrackerV.simple
            (SimpleBlockTracker.mk 1 0 (some (BRef.node 2)) (some (BRef.node 2)) none 0)]
          4
          [DomOp.insertBefore 0 (DomNode.element "div" 2) none,
           DomOp.insertBefore 2 (DomNode.text "hi" 3) none]) ∧
    (NewElementBuilder.mk 0 none none none [0] [none]
          [TrackerV.simple
            (SimpleBlockTracker.mk 1 0 (some (BRef.node 2)) (some (BRef.node 2)) none 0)]
          4
          [DomOp.insertBefore 0 (DomNode.element "div" 2) none,
           DomOp.insertBefore 2 (DomNode.text "hi" 3) none]).elementStack.length
      = (NewElementBuilder.mk 0 none none none [0] [none]
          [TrackerV.simple
            (SimpleBlockTracker.mk 1 0 (some (BRef.node 2)) (some (BRef.node 2)) none 0)]
          4
          [DomOp.insertBefore 0 (DomNode.element "div" 2) none,
           DomOp.insertBefore 2 (DomNode.text "hi" 3) none]).nextSiblingStack.length := by
  refine ⟨rfl, ?_⟩
  exact element_and_sibling_stacks_balanced (fun _ => (none, none)) 0 none
    [BOp.openElement "div", BOp.flushElement, BOp.appendText "hi", BOp.closeElement]
    _ rfl
